import Mathlib

/-!
Verification of the BoblogUI calendrical core: the lunar-conversion and
solar-term module (`BoblogUI.lunar`) and the date-picker grid/week helpers
(`BoblogUI.datePicker`).  The JavaScript source is embedded shallowly:
machine numbers become `Int`/`Nat`, the packed year table becomes a list of
naturals, loops become fuel-indexed structural recursions, and a thrown JS
error becomes an `Except` error value.  Host `Date` objects are modeled as
proleptic-Gregorian civil dates at local midnight (day counts via a civil
day-number function), which matches the millisecond arithmetic the source
performs on them.
-/

/- ============ Model of the host Date library (civil dates) ============ -/

/-- Gregorian leap-year test, as the host date library implements it. -/
def isLeapYear (y : ℤ) : Bool :=
  (y % 4 == 0 && y % 100 != 0) || y % 400 == 0

/-- Number of days strictly before month `m` (1–12) in a year whose
leap-flag is `leap`.  Months outside 1–12 fall into the final branch;
callers only use 1–12. -/
def daysBeforeMonth (leap : Bool) (m : ℤ) : ℤ :=
  let e : ℤ := if leap then 1 else 0
  if m = 1 then 0
  else if m = 2 then 31
  else if m = 3 then 59 + e
  else if m = 4 then 90 + e
  else if m = 5 then 120 + e
  else if m = 6 then 151 + e
  else if m = 7 then 181 + e
  else if m = 8 then 212 + e
  else if m = 9 then 243 + e
  else if m = 10 then 273 + e
  else if m = 11 then 304 + e
  else 334 + e

/-- Length of Gregorian month `m` of year `y`; total function, months
outside 1–12 get the default 31 (callers only use 1–12). -/
def monthLength (y m : ℤ) : ℤ :=
  if m = 2 then (if isLeapYear y then 29 else 28)
  else if m = 4 ∨ m = 6 ∨ m = 9 ∨ m = 11 then 30
  else 31

/-- Civil day number of a proleptic-Gregorian date: `dayNumber 1 1 1 = 1`,
increasing by one per day.  (Day 0, 0000-12-31, is a Sunday, so weekday is
`dayNumber % 7` with 0 = Sunday, matching JS `Date.getDay`.) -/
def dayNumber (y m d : ℤ) : ℤ :=
  365 * (y - 1) + (y - 1) / 4 - (y - 1) / 100 + (y - 1) / 400 +
    daysBeforeMonth (isLeapYear y) m + d

/-- Model of `Date.getDay()` for a civil date: 0 = Sunday … 6 = Saturday. -/
def jsGetDay (y m d : ℤ) : ℤ :=
  dayNumber y m d % 7

/- ============ BoblogUI.lunar: data tables ============ -/

/-- `LUNAR_INFO`: the packed per-year lunar table for 1900–2100
(one hex-encoded integer per year, copied verbatim from the source). -/
def LUNAR_INFO : List ℕ :=
  [0x04bd8, 0x04ae0, 0x0a570, 0x054d5, 0x0d260, 0x0d950, 0x16554, 0x056a0, 0x09ad0, 0x055d2,
   0x04ae0, 0x0a5b6, 0x0a4d0, 0x0d250, 0x1d255, 0x0b540, 0x0d6a0, 0x0ada2, 0x095b0, 0x14977,
   0x04970, 0x0a4b0, 0x0b4b5, 0x06a50, 0x06d40, 0x1ab54, 0x02b60, 0x09570, 0x052f2, 0x04970,
   0x06566, 0x0d4a0, 0x0ea50, 0x06e95, 0x05ad0, 0x02b60, 0x186e3, 0x092e0, 0x1c8d7, 0x0c950,
   0x0d4a0, 0x1d8a6, 0x0b550, 0x056a0, 0x1a5b4, 0x025d0, 0x092d0, 0x0d2b2, 0x0a950, 0x0b557,
   0x06ca0, 0x0b550, 0x15355, 0x04da0, 0x0a5b0, 0x14573, 0x052b0, 0x0a9a8, 0x0e950, 0x06aa0,
   0x0aea6, 0x0ab50, 0x04b60, 0x0aae4, 0x0a570, 0x05260, 0x0f263, 0x0d950, 0x05b57, 0x056a0,
   0x096d0, 0x04dd5, 0x04ad0, 0x0a4d0, 0x0d4d4, 0x0d250, 0x0d558, 0x0b540, 0x0b6a0, 0x195a6,
   0x095b0, 0x049b0, 0x0a974, 0x0a4b0, 0x0b27a, 0x06a50, 0x06d40, 0x0af46, 0x0ab60, 0x09570,
   0x04af5, 0x04970, 0x064b0, 0x074a3, 0x0ea50, 0x06b58, 0x05ac0, 0x0ab60, 0x096d5, 0x092e0,
   0x0c960, 0x0d954, 0x0d4a0, 0x0da50, 0x07552, 0x056a0, 0x0abb7, 0x025d0, 0x092d0, 0x0cab5,
   0x0a950, 0x0b4a0, 0x0baa4, 0x0ad50, 0x055d9, 0x04ba0, 0x0a5b0, 0x15176, 0x052b0, 0x0a930,
   0x07954, 0x06aa0, 0x0ad50, 0x05b52, 0x04b60, 0x0a6e6, 0x0a4e0, 0x0d260, 0x0ea65, 0x0d530,
   0x05aa0, 0x076a3, 0x096d0, 0x04afb, 0x04ad0, 0x0a4d0, 0x1d0b6, 0x0d250, 0x0d520, 0x0dd45,
   0x0b5a0, 0x056d0, 0x055b2, 0x049b0, 0x0a577, 0x0a4b0, 0x0aa50, 0x1b255, 0x06d20, 0x0ada0,
   0x14b63, 0x09370, 0x049f8, 0x04970, 0x064b0, 0x168a6, 0x0ea50, 0x06b20, 0x1a6c4, 0x0aae0,
   0x0a2e0, 0x0d2e3, 0x0c960, 0x0d557, 0x0d4a0, 0x0da50, 0x05d55, 0x056a0, 0x0a6d0, 0x055d4,
   0x052d0, 0x0a9b8, 0x0a950, 0x0b4a0, 0x0b6a6, 0x0ad50, 0x055a0, 0x0aba4, 0x0a5b0, 0x052b0,
   0x0b273, 0x06930, 0x07337, 0x06aa0, 0x0ad50, 0x14b55, 0x04b60, 0x0a570, 0x054e4, 0x0d160,
   0x0e968, 0x0d520, 0x0daa0, 0x16aa6, 0x056d0, 0x04ae0, 0x0a9d4, 0x0a2d0, 0x0d150, 0x0f252,
   0x0d520]

/-- `getLunarYearInfo`: `LUNAR_INFO[year - LUNAR_BASE_YEAR]`.  A JS
out-of-bounds array read yields `undefined`, which every bitwise
extraction applied to it coerces to 0, so the out-of-range default is 0. -/
def getLunarYearInfo (year : ℤ) : ℕ :=
  if year < 1900 then 0 else LUNAR_INFO.getD (year - 1900).toNat 0

/-- `getLeapMonth`: bits 13–16 of the year's packed entry
(`(info >> 13) & 0x0F`). -/
def getLeapMonth (year : ℤ) : ℤ :=
  (((getLunarYearInfo year) >>> 13) &&& 0x0F : ℕ)

/-- `getLeapMonthDays`: 0 when `getLeapMonth` is 0, otherwise 30 or 29
according to bit 17 (`info & 0x10000`). -/
def getLeapMonthDays (year : ℤ) : ℤ :=
  if getLeapMonth year = 0 then 0
  else if (getLunarYearInfo year) &&& 0x10000 ≠ 0 then 30 else 29

/-- `getMonthDays`: 30 or 29 according to bit `month - 1`
(`info & (1 << (month - 1))`); the module only calls it with
`month` in 1–12. -/
def getMonthDays (year month : ℤ) : ℤ :=
  if (getLunarYearInfo year) &&& (1 <<< (month - 1).toNat) ≠ 0 then 30 else 29

/-- `getYearDays`: the 12 ordinal month lengths summed in a loop, plus the
leap-month day count. -/
def getYearDays (year : ℤ) : ℤ :=
  (List.range 12).foldl (fun days i => days + getMonthDays year (i + 1)) 0 +
    getLeapMonthDays year

/-- `getDaysBetween(date1, date2)`: the floored millisecond difference in
days; for civil dates at the same local midnight this is the difference of
civil day numbers. -/
def getDaysBetween (y1 m1 d1 y2 m2 d2 : ℤ) : ℤ :=
  dayNumber y1 m1 d1 - dayNumber y2 m2 d2

/- ============ BoblogUI.lunar: getLunar ============ -/

/-- The single error kind a module function can surface: `getLunar` throws
`Error('年份必须在 1900-2100 之间')` (an out-of-range year), and an
out-of-range index into `JIEQI_DATA` makes `getJieqiDate` read a property
of `undefined`, a TypeError. -/
inductive JsError where
  | outOfRange : JsError
  | typeError : JsError
deriving DecidableEq

/-- Numeric core of the object `getLunar` returns (the derived text fields
`lunarMonthText`, `lunarDayText`, `ganZhiYear` are presentation lookups on
these numbers and are not needed by the claims). -/
structure LunarDate where
  lunarYear : ℤ
  lunarMonth : ℤ
  lunarDay : ℤ
  isLeapMonth : Bool
deriving DecidableEq

/-- The year-walk of `getLunar`:
`while (lunarYear < 2101 && offset > 0) { ... if (offset < yearDays) break; ... }`,
returning the final `(lunarYear, offset)`.  The loop body runs at most 201
times, so fuel 202 makes the fuel-exhaustion branch unreachable. -/
def lunarYearLoop : ℕ → ℤ → ℤ → ℤ × ℤ
  | 0, lunarYear, offset => (lunarYear, offset)
  | fuel + 1, lunarYear, offset =>
    if lunarYear < 2101 ∧ offset > 0 then
      let yearDays := getYearDays lunarYear
      if offset < yearDays then (lunarYear, offset)
      else lunarYearLoop fuel (lunarYear + 1) (offset - yearDays)
    else (lunarYear, offset)

/-- The month-walk of `getLunar`: the `for (i = 1; i <= 12; i++)` loop with
the in-body `i--` re-processing hack for the leap month.  Returns
`(lunarMonth, offset, isLeapMonth)`; when the loop ends without `break`,
`lunarMonth` keeps its initial value 1, as in the source.  The leap branch
fires at most once, so the loop body runs at most 14 times; fuel 15 makes
the fuel-exhaustion branch unreachable. -/
def lunarMonthLoop (lunarYear leapMonth : ℤ) : ℕ → ℤ → ℤ → Bool → ℤ × ℤ × Bool
  | 0, _, offset, isLeapMonth => (1, offset, isLeapMonth)
  | fuel + 1, i, offset, isLeapMonth =>
    if i ≤ 12 then
      let step :=
        if leapMonth > 0 ∧ i = leapMonth + 1 ∧ isLeapMonth = false then
          (i - 1, true, getLeapMonthDays lunarYear)
        else (i, isLeapMonth, getMonthDays lunarYear i)
      if offset < step.2.2 then (step.1, offset, step.2.1)
      else
        let isLeapMonth' := if step.2.1 = true ∧ step.1 = leapMonth + 1 then false else step.2.1
        lunarMonthLoop lunarYear leapMonth fuel (step.1 + 1) (offset - step.2.2) isLeapMonth'
    else (1, offset, isLeapMonth)

/-- `getLunar(year, month, day)`: validate the year, take the day-offset
from the epoch 1900-01-31, walk years then months, and return the lunar
date (numeric fields). -/
def getLunar (year month day : ℤ) : Except JsError LunarDate :=
  if year < 1900 ∨ year > 2100 then Except.error JsError.outOfRange
  else
    let offset := getDaysBetween year month day 1900 1 31
    let yearState := lunarYearLoop 202 1900 offset
    let leapMonth := getLeapMonth yearState.1
    let monthState := lunarMonthLoop yearState.1 leapMonth 15 1 yearState.2 false
    Except.ok ⟨yearState.1, monthState.1, monthState.2.1 + 1, monthState.2.2⟩

/- ============ theorems: C5, C6, C1, C3, C4 ============ -/

/-- C5: refuted on the code.  The spec says the decoded leap month (bits
13–16, as `getLeapMonth` extracts them) is in [0, 12] for every year in
[1900, 2100], but the 1914 entry `0x1d255` decodes to 14 under that
extraction, contradicting the function's own documented 0–12 range (the
table actually stores the leap month in its low nibble). -/
theorem getLeapMonth_1914_out_of_range :
    getLeapMonth 1914 = 14 ∧ ¬ (getLeapMonth 1914 ≤ 12) := by
  constructor <;> decide

/-- C6: refuted on the code.  The spec bounds `getYearDays` by [353, 385]
on [1900, 2100], but for 1919 the mis-positioned bit extraction yields a
leap month for every year and `getYearDays 1919 = 386`. -/
theorem getYearDays_1919_exceeds_bound :
    getYearDays 1919 = 386 ∧ ¬ (getYearDays 1919 ≤ 385) := by
  constructor <;> decide

/-- C1: refuted on the code.  For the in-range, post-epoch input
1900-04-28 (day-offset 87 from the epoch), `getLunar` returns lunar month
3 of 1900 with `isLeapMonth = true`, although `getLeapMonth 1900 = 2`:
the `isLeapMonth` flag is reset only after the month following the leap
month has been fully consumed, so a date landing inside that following
month keeps the flag set, violating the stated invariant. -/
theorem getLunar_leap_flag_invariant_fails :
    getLunar 1900 4 28 = Except.ok ⟨1900, 3, 1, true⟩ ∧
      getLeapMonth 1900 = 2 ∧ (2 : ℤ) ≠ 3 := by
  refine ⟨by rfl, by decide, by decide⟩

/-- C3: partially refuted on the code.  Years outside [1900, 2100] do fail
(both spec boundary probes throw), but a date of January 1900 before the
epoch 1900-01-31 is not rejected: `getLunar 1900 1 1` has day-offset −30
and returns a `LunarDate` with `lunarDay = -29` instead of failing. -/
theorem getLunar_pre_epoch_not_rejected :
    getLunar 1899 12 31 = Except.error JsError.outOfRange ∧
      getLunar 2101 1 1 = Except.error JsError.outOfRange ∧
      getLunar 1900 1 1 = Except.ok ⟨1900, 1, -29, false⟩ := by
  refine ⟨by rfl, by rfl, by rfl⟩

/-- C4: refuted on the code.  The epoch anchor holds
(`getLunar 1900 1 31` is lunar 1900-1-1, not leap), and the decoded 1900
segments are month 1 = 29d, month 2 = 29d, leap month (after month 2) =
29d, so ordinal month 3 starts at cumulative offset 87 = Gregorian
1900-04-28; but `getLunar` at that first day returns
`isLeapMonth = true` instead of the table's `false` for an ordinal
month. -/
theorem getLunar_first_day_round_trip_fails :
    getLunar 1900 1 31 = Except.ok ⟨1900, 1, 1, false⟩ ∧
      getMonthDays 1900 1 = 29 ∧ getMonthDays 1900 2 = 29 ∧
      getLeapMonthDays 1900 = 29 ∧ getLeapMonth 1900 = 2 ∧
      getDaysBetween 1900 4 28 1900 1 31 = 29 + 29 + 29 ∧
      getLunar 1900 4 28 = Except.ok ⟨1900, 3, 1, true⟩ := by
  refine ⟨by rfl, by decide, by decide, by decide, by decide, by decide, by rfl⟩

/- ============ BoblogUI.lunar: solar terms (jieqi) ============ -/

/-- `JIEQI_NAMES`: the 24 term names, two per month. -/
def JIEQI_NAMES : List String :=
  ["小寒", "大寒", "立春", "雨水", "惊蛰", "春分", "清明", "谷雨",
   "立夏", "小满", "芒种", "夏至", "小暑", "大暑", "立秋", "处暑",
   "白露", "秋分", "寒露", "霜降", "立冬", "小雪", "大雪", "冬至"]

/-- `JIEQI_DATA`: per-term century coefficients `[C20th, C21st]`.  The
source stores decimal fractions with at most four decimal places; they are
embedded exactly as integer ten-thousandths, so the source's
`Math.floor(Y * 0.2422 + C)` is `(Y * 2422 + C₁₀₀₀₀) / 10000` (floor).
Over the whole supported domain (Y = year % 100 ∈ [0, 99]) the exact
decimal value is at distance ≥ 1/10000 from any integer it does not equal,
far above double-rounding error, so the IEEE-double evaluation in the
source floors to the same integer. -/
def JIEQI_DATA : List (ℤ × ℤ) :=
  [(61100, 54055), (208400, 201200), (46295, 38700), (194599, 187300),
   (63826, 56300), (214155, 206460), (55900, 48100), (208880, 201000),
   (63180, 55200), (218600, 210400), (65000, 56780), (222000, 213700),
   (79280, 71080), (236500, 228300), (83500, 75000), (239500, 231300),
   (84400, 76460), (238220, 230420), (90980, 83180), (242180, 234380),
   (82180, 74380), (230800, 223600), (79000, 71800), (226000, 219400)]

/-- `JIEQI_EXCEPTIONS`: the sparse correction object, as a total function
returning 0 for absent keys.  (Every stored correction is ±1, so the JS
truthiness guard `EXC[index] && EXC[index][year]` never skips a stored
value.) -/
def JIEQI_EXCEPTIONS (index year : ℤ) : ℤ :=
  if index = 0 then (if year = 1982 then 1 else if year = 2019 then -1 else 0)
  else if index = 1 then (if year = 2000 then 1 else if year = 2082 then 1 else 0)
  else if index = 3 then (if year = 2026 then -1 else 0)
  else if index = 5 then (if year = 2084 then 1 else 0)
  else if index = 9 then (if year = 2008 then 1 else 0)
  else if index = 11 then (if year = 1928 then 1 else 0)
  else if index = 12 then (if year = 1925 then 1 else if year = 2016 then 1 else 0)
  else if index = 13 then (if year = 1922 then 1 else 0)
  else if index = 14 then (if year = 2002 then 1 else 0)
  else if index = 16 then (if year = 1927 then 1 else 0)
  else if index = 17 then (if year = 1942 then 1 else 0)
  else if index = 19 then (if year = 2089 then 1 else 0)
  else if index = 20 then (if year = 2089 then 1 else 0)
  else if index = 21 then (if year = 1978 then 1 else 0)
  else if index = 22 then (if year = 1954 then 1 else 0)
  else if index = 23 then (if year = 1918 then -1 else if year = 2021 then -1 else 0)
  else 0

/-- `getJieqiDate(year, index)`: the 寿星 formula.  The source performs no
index validation: `JIEQI_DATA[index]` for an index outside [0, 23] is
`undefined` and the subsequent coefficient read throws a TypeError, which
the embedding surfaces as `Except.error .typeError`.  `year % 100` models
the JS remainder on the nonnegative years the module supports. -/
def getJieqiDate (year index : ℤ) : Except JsError ℤ :=
  if 0 ≤ index ∧ index < 24 then
    let data := JIEQI_DATA.getD index.toNat (0, 0)
    let use21st := year > 2000 ∨ (year = 2000 ∧ index > 3)
    let C := if use21st then data.2 else data.1
    let Y := year % 100
    let L := if index ≤ 3 then (Y - 1) / 4 else Y / 4
    let jd := (Y * 2422 + C) / 10000 - L
    Except.ok (jd + JIEQI_EXCEPTIONS index year)
  else Except.error JsError.typeError

/-- `getJieqi(year, month, day)`: returns `null` (here `none`) for a year
outside [1900, 2100]; otherwise computes the month's two term dates and
returns the matching name, or `none`. -/
def getJieqi (year month day : ℤ) : Except JsError (Option String) :=
  if year < 1900 ∨ year > 2100 then Except.ok none
  else
    let index1 := (month - 1) * 2
    let index2 := (month - 1) * 2 + 1
    match getJieqiDate year index1, getJieqiDate year index2 with
    | Except.ok jieqi1Date, Except.ok jieqi2Date =>
      if day = jieqi1Date then Except.ok (some (JIEQI_NAMES.getD index1.toNat ""))
      else if day = jieqi2Date then Except.ok (some (JIEQI_NAMES.getD index2.toNat ""))
      else Except.ok none
    | Except.error e, _ => Except.error e
    | _, Except.error e => Except.error e

/- ============ theorems: C2, C7 ============ -/

/-- C2, counterexample: `getJieqi` with an out-of-range year does not fail
with `OutOfRange`; it silently returns the normal "no term" result. -/
theorem getJieqi_1899_returns_no_term :
    getJieqi 1899 1 1 = Except.ok none ∧
      getJieqi 1899 1 1 ≠ Except.error JsError.outOfRange := by
  have h : getJieqi 1899 1 1 = Except.ok none := by rfl
  exact ⟨h, by simp [h]⟩

/-- C2, amended: `getJieqi` treats an out-of-range year as "no term"
(returns `null` without failing); `getJieqiDate` with an index outside
[0, 23] fails, but with an unchecked TypeError from the coefficient-table
lookup rather than a produced `OutOfRange` error; and for in-range
arguments `getJieqiDate` never fails. -/
theorem getJieqi_failure_modes :
    (∀ year month day : ℤ, year < 1900 ∨ year > 2100 →
        getJieqi year month day = Except.ok none) ∧
      (∀ year index : ℤ, index < 0 ∨ 23 < index →
        getJieqiDate year index = Except.error JsError.typeError) ∧
      (∀ year index : ℤ, 1900 ≤ year → year ≤ 2100 → 0 ≤ index → index ≤ 23 →
        ∃ d : ℤ, getJieqiDate year index = Except.ok d) := by
  refine ⟨?_, ?_, ?_⟩
  · intro year month day h
    unfold getJieqi
    rw [if_pos (by omega)]
  · intro year index h
    unfold getJieqiDate
    rw [if_neg (by omega)]
  · intro year index hy1 hy2 hi1 hi2
    unfold getJieqiDate
    rw [if_pos (by omega)]
    exact ⟨_, rfl⟩

/-- C2, witness for the amended statement at concrete inputs. -/
theorem getJieqi_failure_modes_witness :
    getJieqi 1880 2 2 = Except.ok none ∧
      getJieqiDate 1950 24 = Except.error JsError.typeError ∧
      ∃ d : ℤ, getJieqiDate 2024 0 = Except.ok d := by
  refine ⟨getJieqi_failure_modes.1 1880 2 2 (by omega),
    getJieqi_failure_modes.2.1 1950 24 (by omega),
    getJieqi_failure_modes.2.2 2024 0 (by omega) (by omega) (by omega) (by omega)⟩

/-- The solar-term day formula exactly as the claim states it: century
coefficient `C` is the 21st-century one iff `year > 2000` or
(`year = 2000` and `termIndex > 3`); `L = floor((Y-1)/4)` for
`termIndex ≤ 3` and `floor(Y/4)` otherwise, with `Y = year mod 100`; the
day is `floor(Y * 0.2422 + C) - L` plus the exception-table correction. -/
def jieqiDateSpec (year termIndex : ℤ) : ℤ :=
  let data := JIEQI_DATA.getD termIndex.toNat (0, 0)
  let C := if year > 2000 ∨ (year = 2000 ∧ termIndex > 3) then data.2 else data.1
  let Y := year % 100
  let L := if termIndex ≤ 3 then (Y - 1) / 4 else Y / 4
  (Y * 2422 + C) / 10000 - L + JIEQI_EXCEPTIONS termIndex year

/-- C7: for every supported year and term index, `getJieqiDate` returns
exactly the claim's formula value. -/
theorem getJieqiDate_eq_formula (year termIndex : ℤ)
    (hy1 : 1900 ≤ year) (hy2 : year ≤ 2100)
    (hi1 : 0 ≤ termIndex) (hi2 : termIndex ≤ 23) :
    getJieqiDate year termIndex = Except.ok (jieqiDateSpec year termIndex) := by
  unfold getJieqiDate jieqiDateSpec
  rw [if_pos (by omega)]

/-- C7, witness: the formula at (2024, minor cold) gives January 6. -/
theorem getJieqiDate_eq_formula_witness :
    getJieqiDate 2024 0 = Except.ok (jieqiDateSpec 2024 0) ∧
      jieqiDateSpec 2024 0 = 6 :=
  ⟨getJieqiDate_eq_formula 2024 0 (by omega) (by omega) (by omega) (by omega),
    by decide⟩

/- ============ BoblogUI.datePicker: grid and week helpers ============ -/

/-- `getDaysInMonth(year, month)` = `new Date(year, month, 0).getDate()`:
day 0 of month index `month` is, after JS date normalization, the last day
of the 1-based month `month`; for `month = 0` that is December 31 of the
previous year.  The normalization is `(year, monthIndex)` ↦
`(year + monthIndex / 12, monthIndex % 12)` with floor division. -/
def getDaysInMonth (year month : ℤ) : ℤ :=
  monthLength (year + (month - 1) / 12) ((month - 1) % 12 + 1)

/-- `getFirstDayOfWeek(year, month)` = `new Date(year, month - 1, 1).getDay()`:
the weekday (0 = Sunday) of the first of the month, after the same JS
month normalization. -/
def getFirstDayOfWeek (year month : ℤ) : ℤ :=
  jsGetDay (year + (month - 1) / 12) ((month - 1) % 12 + 1) 1

/-- One cell of the 42-cell calendar grid. -/
structure GridCell where
  year : ℤ
  month : ℤ
  day : ℤ
  isCurrentMonth : Bool
deriving DecidableEq

/-- The `for (i = 0; i < 42; i++)` loop of `buildCalendarGrid`, with its
three `grid.push` branches and the mutable counters `day` and
`nextMonthDay`; `fuel` counts the remaining iterations (42 − i). -/
def gridLoopAux (year month firstDay daysInMonth daysInPrevMonth : ℤ) :
    ℕ → ℤ → ℤ → ℤ → List GridCell
  | 0, _, _, _ => []
  | fuel + 1, i, day, nextMonthDay =>
    if i < firstDay then
      ⟨if month = 1 then year - 1 else year, if month = 1 then 12 else month - 1,
        daysInPrevMonth - firstDay + i + 1, false⟩ ::
        gridLoopAux year month firstDay daysInMonth daysInPrevMonth fuel (i + 1) day nextMonthDay
    else if day ≤ daysInMonth then
      ⟨year, month, day, true⟩ ::
        gridLoopAux year month firstDay daysInMonth daysInPrevMonth fuel (i + 1) (day + 1)
          nextMonthDay
    else
      ⟨if month = 12 then year + 1 else year, if month = 12 then 1 else month + 1,
        nextMonthDay, false⟩ ::
        gridLoopAux year month firstDay daysInMonth daysInPrevMonth fuel (i + 1) day
          (nextMonthDay + 1)

/-- `buildCalendarGrid(year, month)`: previous-month tail, current month,
next-month head, 42 cells. -/
def buildCalendarGrid (year month : ℤ) : List GridCell :=
  gridLoopAux year month (getFirstDayOfWeek year month) (getDaysInMonth year month)
    (getDaysInMonth year (month - 1)) 42 0 1 1

/-- `getWeekNumber(year, month, day)`:
`Math.ceil((dayOfYear + firstDayOffset) / 7)` where
`dayOfYear = floor((date - jan1) / 86400000) + 1` and `firstDayOffset` is
the weekday of January 1.  For an integer `n`, `Math.ceil(n / 7)` is the
floor of `(n + 6) / 7`. -/
def getWeekNumber (year month day : ℤ) : ℤ :=
  ((dayNumber year month day - dayNumber year 1 1 + 1) + jsGetDay year 1 1 + 6) / 7

/-- The successor of a calendar date, following the claims' notion of
consecutive valid calendar dates. -/
def nextDate (y m d : ℤ) : ℤ × ℤ × ℤ :=
  if d < monthLength y m then (y, m, d + 1)
  else if m < 12 then (y, m + 1, 1) else (y + 1, 1, 1)

/-- Closed form of the grid loop: the cell pushed at loop index `i` as a
function of `i` alone (derived below from the loop by its invariant
`day = 1 + max 0 (min (i - firstDay) daysInMonth)`,
`nextMonthDay = 1 + max 0 (i - firstDay - daysInMonth)`). -/
def gridCellAt (year month firstDay daysInMonth daysInPrevMonth i : ℤ) : GridCell :=
  if i < firstDay then
    ⟨if month = 1 then year - 1 else year, if month = 1 then 12 else month - 1,
      daysInPrevMonth - firstDay + i + 1, false⟩
  else if i - firstDay + 1 ≤ daysInMonth then
    ⟨year, month, i - firstDay + 1, true⟩
  else
    ⟨if month = 12 then year + 1 else year, if month = 12 then 1 else month + 1,
      i - firstDay - daysInMonth + 1, false⟩

/- ============ helper lemmas ============ -/

theorem monthLength_bounds (y m : ℤ) : 28 ≤ monthLength y m ∧ monthLength y m ≤ 31 := by
  unfold monthLength
  split_ifs <;> norm_num

theorem jsGetDay_bounds (y m d : ℤ) : 0 ≤ jsGetDay y m d ∧ jsGetDay y m d < 7 := by
  unfold jsGetDay
  omega

theorem getFirstDayOfWeek_bounds (y m : ℤ) :
    0 ≤ getFirstDayOfWeek y m ∧ getFirstDayOfWeek y m < 7 := by
  unfold getFirstDayOfWeek
  exact jsGetDay_bounds _ _ _

theorem getDaysInMonth_bounds (y m : ℤ) :
    28 ≤ getDaysInMonth y m ∧ getDaysInMonth y m ≤ 31 := by
  unfold getDaysInMonth
  exact monthLength_bounds _ _

/-- For a real month 1–12 the JS normalization in `getDaysInMonth` is the
identity. -/
theorem getDaysInMonth_eq_monthLength (y m : ℤ) (h1 : 1 ≤ m) (h2 : m ≤ 12) :
    getDaysInMonth y m = monthLength y m := by
  unfold getDaysInMonth
  have e1 : (m - 1) / 12 = 0 := by omega
  have e2 : (m - 1) % 12 = m - 1 := by omega
  rw [e1, e2]
  ring_nf

/-- The `daysInPrevMonth` argument of the grid equals the length of the
wrapped previous month. -/
theorem getDaysInMonth_prev (y m : ℤ) (h1 : 1 ≤ m) (h2 : m ≤ 12) :
    getDaysInMonth y (m - 1) =
      monthLength (if m = 1 then y - 1 else y) (if m = 1 then 12 else m - 1) := by
  by_cases hm : m = 1
  · subst hm
    unfold getDaysInMonth
    norm_num
    ring_nf
  · rw [if_neg hm, if_neg hm]
    unfold getDaysInMonth
    have e1 : (m - 1 - 1) / 12 = 0 := by omega
    have e2 : (m - 1 - 1) % 12 = m - 2 := by omega
    rw [e1, e2]
    ring_nf

/-- Loop invariant of `gridLoopAux`: starting at index `i` with the
counters determined by `i`, the loop produces exactly the closed-form
cells for indices `i, i+1, …`. -/
theorem gridLoopAux_eq (year month firstDay daysInMonth daysInPrevMonth : ℤ)
    (hfd : 0 ≤ firstDay) (hdim : 1 ≤ daysInMonth) :
    ∀ (fuel : ℕ) (i day nextMonthDay : ℤ),
      day = 1 + max 0 (min (i - firstDay) daysInMonth) →
      nextMonthDay = 1 + max 0 (i - firstDay - daysInMonth) →
      gridLoopAux year month firstDay daysInMonth daysInPrevMonth fuel i day nextMonthDay =
        (List.range fuel).map
          (fun k : ℕ => gridCellAt year month firstDay daysInMonth daysInPrevMonth
            (i + (k : ℤ))) := by
  intro fuel
  induction fuel with
  | zero => intro i day nextMonthDay _ _; rfl
  | succ n ih =>
    intro i day nextMonthDay hday hnmd
    rw [List.range_succ_eq_map, List.map_cons, List.map_map]
    have hzero : i + ((0 : ℕ) : ℤ) = i := by push_cast; ring
    have htail : ∀ (day' nmd' : ℤ),
        day' = 1 + max 0 (min (i + 1 - firstDay) daysInMonth) →
        nmd' = 1 + max 0 (i + 1 - firstDay - daysInMonth) →
        gridLoopAux year month firstDay daysInMonth daysInPrevMonth n (i + 1) day' nmd' =
          (List.range n).map
            ((fun k : ℕ => gridCellAt year month firstDay daysInMonth daysInPrevMonth
              (i + (k : ℤ))) ∘ Nat.succ) := by
      intro day' nmd' ha hb
      rw [ih (i + 1) day' nmd' ha hb]
      refine List.map_congr_left fun k _ => ?_
      simp only [Function.comp_apply]
      congr 1
      push_cast
      ring
    simp only [gridLoopAux]
    by_cases h1 : i < firstDay
    · rw [if_pos h1]
      congr 1
      · rw [gridCellAt, hzero, if_pos h1]
      · exact htail day nextMonthDay (by omega) (by omega)
    · rw [if_neg h1]
      by_cases h2 : day ≤ daysInMonth
      · rw [if_pos h2]
        congr 1
        · have hc : i - firstDay + 1 ≤ daysInMonth := by omega
          rw [gridCellAt, hzero, if_neg h1, if_pos hc]
          rw [show day = i - firstDay + 1 by omega]
        · exact htail (day + 1) nextMonthDay (by omega) (by omega)
      · rw [if_neg h2]
        congr 1
        · have hc : ¬ (i - firstDay + 1 ≤ daysInMonth) := by omega
          rw [gridCellAt, hzero, if_neg h1, if_neg hc]
          rw [show nextMonthDay = i - firstDay - daysInMonth + 1 by omega]
        · exact htail day (nextMonthDay + 1) (by omega) (by omega)

/-- The grid is the closed-form cell function mapped over indices 0–41. -/
theorem buildCalendarGrid_eq (year month : ℤ) :
    buildCalendarGrid year month =
      (List.range 42).map (fun k : ℕ =>
        gridCellAt year month (getFirstDayOfWeek year month) (getDaysInMonth year month)
          (getDaysInMonth year (month - 1)) (k : ℤ)) := by
  have hfd := (getFirstDayOfWeek_bounds year month).1
  have hdim := (getDaysInMonth_bounds year month).1
  have hmain := gridLoopAux_eq year month (getFirstDayOfWeek year month)
    (getDaysInMonth year month) (getDaysInMonth year (month - 1)) hfd (by omega)
    42 0 1 1 (by omega) (by omega)
  unfold buildCalendarGrid
  rw [hmain]
  refine List.map_congr_left fun k _ => ?_
  norm_num

/-- C8: the calendar grid always has exactly 42 cells, and the cell at
index `firstWeekday(year, month)` is day 1 of the current month. -/
theorem buildCalendarGrid_cell_at_first_weekday (year month : ℤ)
    (h1 : 1 ≤ month) (h2 : month ≤ 12) :
    (buildCalendarGrid year month).length = 42 ∧
      (buildCalendarGrid year month)[(getFirstDayOfWeek year month).toNat]? =
        some ⟨year, month, 1, true⟩ := by
  have hfd := getFirstDayOfWeek_bounds year month
  have hdim := getDaysInMonth_bounds year month
  constructor
  · rw [buildCalendarGrid_eq]
    simp
  · rw [buildCalendarGrid_eq, List.getElem?_map,
      List.getElem?_range (by omega : (getFirstDayOfWeek year month).toNat < 42)]
    have hcast : (((getFirstDayOfWeek year month).toNat : ℕ) : ℤ) =
        getFirstDayOfWeek year month := Int.toNat_of_nonneg hfd.1
    simp only [Option.map_some']
    congr 1
    rw [gridCellAt, hcast, if_neg (by omega), if_pos (by omega)]
    norm_num

/-- C8, witness: May 2024 starts on a Wednesday (weekday 3). -/
theorem buildCalendarGrid_cell_at_first_weekday_witness :
    (buildCalendarGrid 2024 5).length = 42 ∧
      (buildCalendarGrid 2024 5)[(getFirstDayOfWeek 2024 5).toNat]? =
        some ⟨2024, 5, 1, true⟩ ∧
      (getFirstDayOfWeek 2024 5).toNat = 3 :=
  ⟨(buildCalendarGrid_cell_at_first_weekday 2024 5 (by omega) (by omega)).1,
    (buildCalendarGrid_cell_at_first_weekday 2024 5 (by omega) (by omega)).2,
    by decide⟩

/-- Arithmetic form of the leap-year test. -/
theorem isLeapYear_iff (y : ℤ) :
    isLeapYear y = true ↔ ((y % 4 = 0 ∧ y % 100 ≠ 0) ∨ y % 400 = 0) := by
  simp [isLeapYear]

/-- Stepping to the next calendar date advances the civil day number by
exactly one. -/
theorem dayNumber_nextDate (y m d : ℤ) (hm1 : 1 ≤ m) (hm2 : m ≤ 12)
    (hd1 : 1 ≤ d) (hd2 : d ≤ monthLength y m) :
    dayNumber (nextDate y m d).1 (nextDate y m d).2.1 (nextDate y m d).2.2 =
      dayNumber y m d + 1 := by
  unfold nextDate
  by_cases h : d < monthLength y m
  · rw [if_pos h]
    show dayNumber y m (d + 1) = dayNumber y m d + 1
    unfold dayNumber
    ring
  · rw [if_neg h]
    have hdml : d = monthLength y m := by omega
    by_cases h12 : m < 12
    · rw [if_pos h12]
      show dayNumber y (m + 1) 1 = dayNumber y m d + 1
      have hstep : daysBeforeMonth (isLeapYear y) (m + 1) =
          daysBeforeMonth (isLeapYear y) m + monthLength y m := by
        interval_cases m <;> cases hly : isLeapYear y <;>
          simp [daysBeforeMonth, monthLength, hly]
      unfold dayNumber
      omega
    · have hm12 : m = 12 := by omega
      subst hm12
      rw [if_neg h12]
      show dayNumber (y + 1) 1 1 = dayNumber y 12 d + 1
      have hml : monthLength y 12 = 31 := by norm_num [monthLength]
      rw [hdml, hml]
      have hiff := isLeapYear_iff y
      unfold dayNumber
      have hb1 : daysBeforeMonth (isLeapYear (y + 1)) 1 = 0 := by
        cases isLeapYear (y + 1) <;> simp [daysBeforeMonth]
      rw [hb1]
      cases hly : isLeapYear y
      · have hnl : ¬ ((y % 4 = 0 ∧ y % 100 ≠ 0) ∨ y % 400 = 0) := by
          rw [← hiff, hly]
          simp
        simp only [daysBeforeMonth]
        norm_num
        omega
      · have hl : (y % 4 = 0 ∧ y % 100 ≠ 0) ∨ y % 400 = 0 := hiff.mp hly
        simp only [daysBeforeMonth]
        norm_num
        omega

/-- C9: within one Gregorian year the week number never decreases from one
day to the next. -/
theorem getWeekNumber_monotone (y m d : ℤ) (hm1 : 1 ≤ m) (hm2 : m ≤ 12)
    (hd1 : 1 ≤ d) (hd2 : d ≤ monthLength y m)
    (hsame : (nextDate y m d).1 = y) :
    getWeekNumber y m d ≤
      getWeekNumber (nextDate y m d).1 (nextDate y m d).2.1 (nextDate y m d).2.2 := by
  have hstep := dayNumber_nextDate y m d hm1 hm2 hd1 hd2
  rw [hsame] at hstep ⊢
  simp only [getWeekNumber, jsGetDay]
  omega

/-- C9, witness: May 1 → May 2, 2024 (both in week 18). -/
theorem getWeekNumber_monotone_witness :
    getWeekNumber 2024 5 1 ≤
      getWeekNumber (nextDate 2024 5 1).1 (nextDate 2024 5 1).2.1 (nextDate 2024 5 1).2.2 ∧
      nextDate 2024 5 1 = (2024, 5, 2) ∧ getWeekNumber 2024 5 1 = 18 :=
  ⟨getWeekNumber_monotone 2024 5 1 (by omega) (by omega) (by omega) (by decide) (by decide),
    by decide, by decide⟩

/-- One step of the closed-form grid: the cell at index `i + 1` is the
calendar successor of the cell at index `i`. -/
theorem gridCellAt_step (year month fd dim dpm : ℤ)
    (h1 : 1 ≤ month) (h2 : month ≤ 12)
    (hfd0 : 0 ≤ fd) (hfd7 : fd < 7)
    (hdim : dim = monthLength year month) (hdim28 : 28 ≤ dim)
    (hdpm : dpm = monthLength (if month = 1 then year - 1 else year)
      (if month = 1 then 12 else month - 1))
    (hdpm28 : 28 ≤ dpm)
    (hnm28 : 28 ≤ monthLength (if month = 12 then year + 1 else year)
      (if month = 12 then 1 else month + 1))
    (i : ℤ) (hi0 : 0 ≤ i) (hi41 : i + 1 ≤ 41) :
    ((gridCellAt year month fd dim dpm (i + 1)).year,
      (gridCellAt year month fd dim dpm (i + 1)).month,
      (gridCellAt year month fd dim dpm (i + 1)).day) =
      nextDate (gridCellAt year month fd dim dpm i).year
        (gridCellAt year month fd dim dpm i).month
        (gridCellAt year month fd dim dpm i).day := by
  simp only [gridCellAt]
  by_cases hAp : i + 1 < fd
  · have hA : i < fd := by omega
    rw [if_pos hAp, if_pos hA]
    dsimp only
    simp only [nextDate]
    have hc : dpm - fd + i + 1 < monthLength (if month = 1 then year - 1 else year)
        (if month = 1 then 12 else month - 1) := by
      rw [← hdpm]; omega
    rw [if_pos hc]
    simp only [Prod.mk.injEq]
    refine ⟨by trivial, by trivial, by ring⟩
  · by_cases hA : i < fd
    · rw [if_pos hA, if_neg hAp, if_pos (by omega : i + 1 - fd + 1 ≤ dim)]
      dsimp only
      simp only [nextDate]
      have hc : ¬ (dpm - fd + i + 1 < monthLength (if month = 1 then year - 1 else year)
          (if month = 1 then 12 else month - 1)) := by
        rw [← hdpm]; omega
      rw [if_neg hc]
      by_cases hm1 : month = 1
      · subst hm1
        norm_num
        omega
      · rw [if_neg hm1, if_neg hm1, if_pos (by omega : month - 1 < 12)]
        simp only [Prod.mk.injEq]
        refine ⟨by trivial, by ring, by omega⟩
    · by_cases hBp : i + 1 - fd + 1 ≤ dim
      · have hB : i - fd + 1 ≤ dim := by omega
        rw [if_neg hA, if_pos hB, if_neg hAp, if_pos hBp]
        dsimp only
        simp only [nextDate]
        have hc : i - fd + 1 < monthLength year month := by rw [← hdim]; omega
        rw [if_pos hc]
        simp only [Prod.mk.injEq]
        refine ⟨by trivial, by trivial, by ring⟩
      · by_cases hB : i - fd + 1 ≤ dim
        · have hBeq : i - fd + 1 = dim := by omega
          rw [if_neg hA, if_pos hB, if_neg hAp, if_neg hBp]
          dsimp only
          simp only [nextDate]
          have hc : ¬ (i - fd + 1 < monthLength year month) := by rw [← hdim]; omega
          rw [if_neg hc]
          by_cases hm12 : month = 12
          · subst hm12
            norm_num
            omega
          · rw [if_neg hm12, if_neg hm12, if_pos (by omega : month < 12)]
            simp only [Prod.mk.injEq]
            refine ⟨by trivial, by trivial, by omega⟩
        · rw [if_neg hA, if_neg hB, if_neg hAp, if_neg hBp]
          dsimp only
          simp only [nextDate]
          have hc : i - fd - dim + 1 < monthLength (if month = 12 then year + 1 else year)
              (if month = 12 then 1 else month + 1) := by omega
          rw [if_pos hc]
          simp only [Prod.mk.injEq]
          refine ⟨by trivial, by trivial, by ring⟩

/-- C10: every non-current cell of the grid carries the correctly wrapped
year/month (December of the previous year before a January grid, January
of the next year after a December grid, the adjacent month otherwise), and
the 42 cells are valid calendar dates, each cell the calendar successor of
the one before it. -/
theorem buildCalendarGrid_wrap_valid_consecutive (year month : ℤ)
    (h1 : 1 ≤ month) (h2 : month ≤ 12) :
    (∀ (i : ℕ) (c : GridCell), (buildCalendarGrid year month)[i]? = some c →
      (c.isCurrentMonth = false →
        ((i : ℤ) < getFirstDayOfWeek year month →
          c.year = (if month = 1 then year - 1 else year) ∧
            c.month = (if month = 1 then 12 else month - 1)) ∧
        (getFirstDayOfWeek year month ≤ (i : ℤ) →
          c.year = (if month = 12 then year + 1 else year) ∧
            c.month = (if month = 12 then 1 else month + 1))) ∧
      (1 ≤ c.month ∧ c.month ≤ 12 ∧ 1 ≤ c.day ∧ c.day ≤ monthLength c.year c.month)) ∧
    (∀ (i : ℕ) (c c' : GridCell),
      (buildCalendarGrid year month)[i]? = some c →
      (buildCalendarGrid year month)[i + 1]? = some c' →
      (c'.year, c'.month, c'.day) = nextDate c.year c.month c.day) := by
  have hcell : ∀ (i : ℕ) (c : GridCell), (buildCalendarGrid year month)[i]? = some c →
      i < 42 ∧ c = gridCellAt year month (getFirstDayOfWeek year month)
        (getDaysInMonth year month) (getDaysInMonth year (month - 1)) (i : ℤ) := by
    intro i c hc
    rw [buildCalendarGrid_eq] at hc
    have hi : i < 42 := by
      by_contra hge
      have hlen : ((List.range 42).map (fun k : ℕ =>
          gridCellAt year month (getFirstDayOfWeek year month) (getDaysInMonth year month)
            (getDaysInMonth year (month - 1)) (k : ℤ))).length ≤ i := by
        simp only [List.length_map, List.length_range]
        omega
      rw [List.getElem?_eq_none hlen] at hc
      exact Option.noConfusion hc
    rw [List.getElem?_map, List.getElem?_range hi, Option.map_some'] at hc
    exact ⟨hi, (Option.some.inj hc).symm⟩
  have hfd := getFirstDayOfWeek_bounds year month
  have hdimb := getDaysInMonth_bounds year month
  have hdpmb := getDaysInMonth_bounds year (month - 1)
  have hdim := getDaysInMonth_eq_monthLength year month h1 h2
  have hdpm := getDaysInMonth_prev year month h1 h2
  have hnmb := monthLength_bounds (if month = 12 then year + 1 else year)
    (if month = 12 then 1 else month + 1)
  constructor
  · intro i c hc
    obtain ⟨hi42, hceq⟩ := hcell i c hc
    have hi41 : (i : ℤ) ≤ 41 := by omega
    have hi0 : (0 : ℤ) ≤ (i : ℤ) := by omega
    subst hceq
    rw [gridCellAt]
    by_cases hA : (i : ℤ) < getFirstDayOfWeek year month
    · rw [if_pos hA]
      dsimp only
      refine ⟨fun _ => ⟨fun _ => ⟨rfl, rfl⟩, fun hge => absurd hA (by omega)⟩, ?_, ?_, ?_, ?_⟩
      · split_ifs <;> omega
      · split_ifs <;> omega
      · omega
      · rw [← hdpm]
        omega
    · rw [if_neg hA]
      by_cases hB : (i : ℤ) - getFirstDayOfWeek year month + 1 ≤ getDaysInMonth year month
      · rw [if_pos hB]
        dsimp only
        refine ⟨fun hfalse => Bool.noConfusion hfalse, ?_, ?_, ?_, ?_⟩
        · omega
        · omega
        · omega
        · rw [← hdim]
          omega
      · rw [if_neg hB]
        dsimp only
        refine ⟨fun _ => ⟨fun hlt => absurd hlt (by omega), fun _ => ⟨rfl, rfl⟩⟩, ?_, ?_, ?_, ?_⟩
        · split_ifs <;> omega
        · split_ifs <;> omega
        · omega
        · omega
  · intro i c c' hc hc'
    obtain ⟨hi42, hceq⟩ := hcell i c hc
    obtain ⟨hi42', hceq'⟩ := hcell (i + 1) c' hc'
    subst hceq
    subst hceq'
    have hcast : (((i + 1 : ℕ)) : ℤ) = (i : ℤ) + 1 := by push_cast; ring
    rw [hcast]
    exact gridCellAt_step year month (getFirstDayOfWeek year month)
      (getDaysInMonth year month) (getDaysInMonth year (month - 1)) h1 h2
      hfd.1 hfd.2 hdim hdimb.1 hdpm hdpmb.1 hnmb.1 (i : ℤ) (by omega) (by omega)

/-- C10, witness: in the January 2024 grid the first cell is
December 31, 2023, and the second cell, January 1, 2024, is its calendar
successor. -/
theorem buildCalendarGrid_wrap_valid_consecutive_witness :
    ((⟨2024, 1, 1, true⟩ : GridCell).year, (⟨2024, 1, 1, true⟩ : GridCell).month,
        (⟨2024, 1, 1, true⟩ : GridCell).day) =
      nextDate (⟨2023, 12, 31, false⟩ : GridCell).year
        (⟨2023, 12, 31, false⟩ : GridCell).month
        (⟨2023, 12, 31, false⟩ : GridCell).day :=
  (buildCalendarGrid_wrap_valid_consecutive 2024 1 (by omega) (by omega)).2 0
    ⟨2023, 12, 31, false⟩ ⟨2024, 1, 1, true⟩ (by decide) (by decide)
